import Mathlib

/-!
Shallow embedding of the device-provisioning client in
`old_vers/config_module.bak.py` (the configuration fetch/store module of the
rewst_remote_agent repository), together with theorems settling the spec claims
about it.

Conventions of the embedding:
* Python `dict`s produced by the `json` module are modelled as association
  lists with unique keys; `None` is `JVal.null`.
* Python exceptions are modelled with `Except`; an `.error` value means the
  exception propagates out of the modelled function.
* The Python `json` library is external to this module; it is modelled by its
  contract: `json.dump v` stores a well-formed serialization of `v`
  (`FileContent.jsonText v`), `json.load` inverts it and raises on malformed
  input.  Likewise the OS-identity lookups (`uuid.getnode`, `socket`,
  `platform`, `psutil`, the `dsregcmd`/`nltest` subprocesses) are environment
  facts supplied through `HostEnv`/`OsEnv`, exactly as the spec's §6 declares
  them external collaborators consumed only through their outputs.
* The network is modelled by the finite list of per-attempt outcomes the
  endpoint produces; running the retry loop against that list yields a trace
  (requests sent, sleeps performed, log records emitted) and a final outcome.
  `FetchOutcome.pending` means the loop is still iterating (it has consumed
  every supplied outcome and is awaiting the next one).
-/

set_option linter.unusedVariables false

/-- JSON values as handled by Python's `json` module.  Objects model Python
dicts, whose keys are unique; `null` doubles as Python's `None` (in Python the
two really are the same object, a fact claim C7 turns on). -/
inductive JVal where
  | null
  | bool (b : Bool)
  | num (q : ℚ)
  | str (s : String)
  | arr (elems : List JVal)
  | obj (fields : List (String × JVal))

/-- Python exceptions that the modelled code can raise or propagate. -/
inductive PyErr where
  | attributeError
  | typeError
  | keyError
  | nameError
  | permissionError
  | jsonDecodeError
  | osError
deriving DecidableEq

/-- Contents of a file on disk, at the abstraction level of the `json`
library contract: `jsonText v` is a well-formed JSON serialization of `v`
(UTF-8, 4-space indent), `malformed` is unparseable text (`json.load`
raises), `unreadable` is a file `open` cannot read (PermissionError). -/
inductive FileContent where
  | jsonText (v : JVal)
  | malformed
  | unreadable

/-- Python truthiness of a JSON value (`if config_data:`, `if org_id:`). -/
def JVal.truthy : JVal → Bool
  | .null => false
  | .bool b => b
  | .num q => decide (q ≠ 0)
  | .str s => decide (s ≠ "")
  | .arr xs => !xs.isEmpty
  | .obj fs => !fs.isEmpty

/-- Python `data.get(key)`: defined on dicts (returning `None` as `none` when
the key is missing); on any other value `.get` raises AttributeError.  This
mirrors line 116, where `response.json()` need not be a dict. -/
def pyGet : JVal → String → Except PyErr (Option JVal)
  | .obj fs, k => .ok (fs.lookup k)
  | _, _ => .error .attributeError

/-- Substring occurrence on character lists (Python `needle in haystack`). -/
def charsInfix (needle : List Char) : List Char → Bool
  | [] => needle.isEmpty
  | c :: rest => needle.isPrefixOf (c :: rest) || charsInfix needle rest

/-- Python `key in v` for a string `key`: key membership on dicts, substring
test on strings, element equality on lists; TypeError on non-containers. -/
def pyContains (v : JVal) (k : String) : Except PyErr Bool :=
  match v with
  | .obj fs => .ok (fs.any (fun p => k == p.1))
  | .str s => .ok (charsInfix k.toList s.toList)
  | .arr xs => .ok (xs.any (fun x => match x with | .str s => s == k | _ => false))
  | _ => .error .typeError

/-- Python `all(key in v for key in ks)` with generator short-circuiting:
the first `False` stops evaluation, so later TypeErrors are not raised. -/
def pyAllIn (v : JVal) : List String → Except PyErr Bool
  | [] => .ok true
  | k :: ks =>
    match pyContains v k with
    | .error e => .error e
    | .ok false => .ok false
    | .ok true => pyAllIn v ks

/-- Key membership in an association-list document (Python `key in dict`). -/
def containsKey (D : List (String × JVal)) (k : String) : Bool :=
  D.any (fun p => k == p.1)

/-- REQUIRED_KEYS, lines 22-28 of the source. -/
def REQUIRED_KEYS : List String :=
  ["azure_iot_hub_host", "device_id", "shared_access_key",
   "rewst_engine_host", "rewst_org_id"]

/-- Environment facts consumed when building the host-information payload
(lines 73-85).  Per spec §6 the OS-identity lookups are external
collaborators; the fetch core consumes only their outputs, recorded here. -/
structure HostEnv where
  version : String              -- __version__
  executablePath : String       -- sys.executable
  hostname : String             -- socket.gethostname()
  uuidNode : Nat                -- uuid.getnode()
  platformDesc : String         -- platform.platform()
  cpuModel : String             -- platform.processor()
  ramBytes : Nat                -- psutil.virtual_memory().total
  isAdDomainController : Bool   -- is_domain_controller()
  isEntraConnectServer : Bool   -- is_entra_connect_server()
  adDomain : Option String      -- get_ad_domain_name()
  entraDomain : Option String   -- get_entra_domain()

/-- Embeds `get_mac_address` (lines 132-136): `hex(node)[2:]` is sliced into
two-character pieces at indices 0,2,…,10, joined with colons and the colons
then stripped; the net effect is the first 12 hex digits of the node. -/
def get_mac_address (node : Nat) : String :=
  String.mk ((Nat.toDigits 16 node).take 12)

/-- Python `None`-or-string as a JSON value: `None` serializes to `null`. -/
def optToJVal : Option String → JVal
  | none => .null
  | some s => .str s

/-- The `host_info` dict built once per fetch session (lines 73-85).  Note the
actual key strings of the source: `operating_system` (not `os_description`)
and `is_ad_domain_controller` (not `is_domain_controller`); `ad_domain` and
`entra_domain` are always present, with value `null` when the lookup returned
`None`.  Float division is modelled by exact rational division; no claim
depends on the numeric value. -/
def collectHostInfo (env : HostEnv) : List (String × JVal) :=
  [("agent_version", .str env.version),
   ("executable_path", .str env.executablePath),
   ("hostname", .str env.hostname),
   ("mac_address", .str (get_mac_address env.uuidNode)),
   ("operating_system", .str env.platformDesc),
   ("cpu_model", .str env.cpuModel),
   ("ram_gb", .num ((env.ramBytes : ℚ) / ((1024 : ℚ) ^ 3))),
   ("is_ad_domain_controller", .bool env.isAdDomainController),
   ("is_entra_connect_server", .bool env.isEntraConnectServer),
   ("ad_domain", optToJVal env.adDomain),
   ("entra_domain", optToJVal env.entraDomain)]

/-- Headers construction, lines 87-89.  `if secret:` is a Python truthiness
test, so a supplied empty string does NOT set the header. -/
def buildHeaders : Option String → List (String × String)
  | none => []
  | some s => if s = "" then [] else [("x-rewst-secret", s)]

/-- One HTTP request as issued by the loop (line 98-103): method POST, JSON
body `host_info`, the headers built above. -/
structure Request where
  method : String
  body : JVal
  headers : List (String × String)

/-- The request sent on every attempt.  `host_info` and `headers` are computed
once, before the loop (lines 73-89), so the request is constant across
attempts. -/
def requestOf (env : HostEnv) (secret : Option String) : Request :=
  { method := "POST"
    body := .obj (collectHostInfo env)
    headers := buildHeaders secret }

/-- Outcome of one `client.post` as observed by the loop: the two caught
exception classes (lines 104-110), or a response with its status code and
(already decoded) JSON body.  The body is only inspected when the status
is 200. -/
inductive Response where
  | timeout                                  -- httpx.TimeoutException
  | requestError                             -- httpx.RequestError
  | httpResp (status : Nat) (body : JVal)

/-- Log records the loop emits (lines 105, 109, 113, 120, 122, 124, 128). -/
inductive LogEvent where
  | timeoutWarning                 -- "Request timed out. Retrying..."
  | networkWarning                 -- "Network error: ... Retrying..."
  | processingInfo                 -- "Waiting while Rewst processes ..."
  | missingKeysWarning             -- "Missing required keys ... Retrying..."
  | notAuthorizedError             -- "Not authorized. Check your config secret."
  | otherStatusWarning (code : Nat)  -- "Received status code ... Retrying..."
  | phaseAdvanceInfo (interval : Nat)  -- "Moving to next retry phase: ..."
deriving DecidableEq

/-- How one attempt's outcome is handled by the body of the while loop
(lines 104-124): return a configuration, or log something and retry — with
`sleep = false` when a caught transport exception executes `continue`
(skipping line 126's sleep) and `sleep = true` when control falls through
to line 126. -/
inductive ClassifiedOutcome where
  | success (cfg : JVal)
  | retry (log : LogEvent) (sleep : Bool)

/-- Classification of one attempt, a direct transcription of lines 104-124.
`.error` means an uncaught exception propagates out of `fetch_configuration`
(the try/except only wraps the `post` call, so `data.get` on a non-dict body
and `key in config_data` on a non-container both escape). -/
def classify : Response → Except PyErr ClassifiedOutcome
  | .timeout => .ok (.retry .timeoutWarning false)
  | .requestError => .ok (.retry .networkWarning false)
  | .httpResp status body =>
    if status = 303 then
      .ok (.retry .processingInfo true)
    else if status = 200 then
      match pyGet body "configuration" with
      | .error e => .error e
      | .ok none => .ok (.retry .missingKeysWarning true)
      | .ok (some cd) =>
        if cd.truthy then
          match pyAllIn cd REQUIRED_KEYS with
          | .error e => .error e
          | .ok true => .ok (.success cd)
          | .ok false => .ok (.retry .missingKeysWarning true)
        else
          .ok (.retry .missingKeysWarning true)
    else if status = 400 ∨ status = 401 then
      .ok (.retry .notAuthorizedError true)
    else
      .ok (.retry (.otherStatusWarning status) true)

/-- Final outcome of running the loop against a finite list of attempt
outcomes.  `pending` = the list is exhausted and the loop is still iterating;
`crash e` = an uncaught exception escaped; `gaveUp` = control fell off the
end of the phase list (line 129 — which in the source would itself raise
`TypeError`, since `logging.INFO` is an int, not a callable; the final
unbounded phase makes this unreachable). -/
inductive FetchOutcome where
  | success (cfg : JVal)
  | crash (e : PyErr)
  | pending
  | gaveUp

/-- How a single phase ends: with a final outcome, or with its attempt budget
exhausted and the remaining attempt outcomes handed to the next phase. -/
inductive PhaseExit where
  | out (o : FetchOutcome)
  | exhausted (rest : List Response)

/-- Observable trace of a run: the requests sent, the sleeps performed
(each entry one `asyncio.sleep` with its duration), and the log records. -/
structure Trace where
  sent : List Request
  sleeps : List Nat
  logs : List LogEvent

/-- The empty trace. -/
def Trace.nil : Trace := ⟨[], [], []⟩

instance : Append Trace :=
  ⟨fun a b => ⟨a.sent ++ b.sent, a.sleeps ++ b.sleeps, a.logs ++ b.logs⟩⟩

/-- One phase of the retry loop (`while retries < max_retries`, lines 94-126).
`budget` is the number of attempts the phase may still make (`none` models
`float('inf')`, against which `retries < max_retries` is always true).  Each
attempt consumes the next entry of `responses`; a transport exception retries
immediately (`continue`), every retry-worthy response sleeps `interval`. -/
def runPhase (rq : Request) (interval : Nat) :
    List Response → Option Nat → Trace × PhaseExit
  | rs, some 0 => (Trace.nil, PhaseExit.exhausted rs)
  | [], none => (Trace.nil, PhaseExit.out .pending)
  | [], some (_ + 1) => (Trace.nil, PhaseExit.out .pending)
  | r :: rs, none =>
    match classify r with
    | .error e => (⟨[rq], [], []⟩, PhaseExit.out (.crash e))
    | .ok (.success cfg) => (⟨[rq], [], []⟩, PhaseExit.out (.success cfg))
    | .ok (.retry l slp) =>
      let p := runPhase rq interval rs none
      (⟨[rq], if slp then [interval] else [], [l]⟩ ++ p.1, p.2)
  | r :: rs, some (n + 1) =>
    match classify r with
    | .error e => (⟨[rq], [], []⟩, PhaseExit.out (.crash e))
    | .ok (.success cfg) => (⟨[rq], [], []⟩, PhaseExit.out (.success cfg))
    | .ok (.retry l slp) =>
      let p := runPhase rq interval rs (some n)
      (⟨[rq], if slp then [interval] else [], [l]⟩ ++ p.1, p.2)

/-- The phase sequence (`for interval, max_retries in retry_intervals`,
lines 91-129).  A phase that exhausts its budget logs line 128's
"Moving to next retry phase" message (with the current phase's values) and
hands the remaining attempts to the next phase. -/
def runPhases (rq : Request) :
    List (Nat × Option Nat) → List Response → Trace × FetchOutcome
  | [], _ => (Trace.nil, FetchOutcome.gaveUp)
  | (i, b) :: ps, rs =>
    match runPhase rq i rs b with
    | (t, .out o) => (t, o)
    | (t, .exhausted rest) =>
      let p := runPhases rq ps rest
      (t ++ ⟨[], [], [LogEvent.phaseAdvanceInfo i]⟩ ++ p.1, p.2)

/-- `retry_intervals`, line 91: `(interval, max_retries)` per phase, with
`none` for `float('inf')`. -/
def retryIntervals : List (Nat × Option Nat) :=
  [(5, some 12), (60, some 60), (300, none)]

/-- `fetch_configuration` (lines 71-129), run against the finite list of
per-attempt outcomes the endpoint produces.  Returns the observable trace and
the final outcome. -/
def fetch_configuration (env : HostEnv) (secret : Option String)
    (responses : List Response) : Trace × FetchOutcome :=
  runPhases (requestOf env secret) retryIntervals responses

/-- Whether an attempt outcome is handled by a retry branch (as opposed to
returning a configuration or escaping as an exception). -/
def isRetryStep (r : Response) : Bool :=
  match classify r with
  | .ok (.retry _ _) => true
  | _ => false

/-- The log record a retry-worthy attempt emits. -/
def stepLog (r : Response) : LogEvent :=
  match classify r with
  | .ok (.retry l _) => l
  | _ => .processingInfo

/-- The sleeps a retry-worthy attempt performs in a phase with the given
interval: `[interval]` when control reaches line 126, `[]` when a transport
exception's `continue` skips it. -/
def stepSleep (interval : Nat) (r : Response) : List Nat :=
  match classify r with
  | .ok (.retry _ true) => [interval]
  | _ => []

/-- Trace contributed by a run of consecutive retry-worthy attempts within
one phase. -/
def preTrace (rq : Request) (interval : Nat) : List Response → Trace
  | [] => Trace.nil
  | r :: rs => Trace.mk [rq] (stepSleep interval r) [stepLog r] ++ preTrace rq interval rs

/-- Filesystem state: the directories that exist and the files with their
contents (later writes shadow earlier entries, so lookup-first is
last-write-wins). -/
structure FS where
  dirs : List String
  files : List (String × FileContent)

/-- Content of the file at a path, if one exists. -/
def FS.getFile (fs : FS) (p : String) : Option FileContent :=
  fs.files.lookup p

/-- Overwrite (or create) the file at a path. -/
def FS.setFile (fs : FS) (p : String) (c : FileContent) : FS :=
  { fs with files := (p, c) :: fs.files }

/-- Environment facts consumed by path resolution (lines 31-52):
`platform.system()`, the `PROGRAMDATA` variable, the home directory for
`expanduser`, and whether `os.makedirs` would succeed when invoked. -/
structure OsEnv where
  osType : String
  programData : Option String
  home : String
  mkdirOk : Bool

/-- Python truthiness of an optional path string (`if config_file:`). -/
def optStrTruthy : Option String → Bool
  | none => false
  | some s => !(s == "")

/-- Python f-string / str() rendering of a value, as used when interpolating
`org_id` into a path.  String, `None` and bool renderings are exact; numeric
and container renderings are approximate (no claim depends on them). -/
def fstr : JVal → String
  | .str s => s
  | .null => "None"
  | .bool true => "True"
  | .bool false => "False"
  | .num q => toString q
  | .arr _ => "[...]"
  | .obj _ => "[...]"

/-- Rendering of the optional `org_id` argument under f-string interpolation
(`f"{org_id}"` of `None` is the string "None"). -/
def fstrOpt : Option JVal → String
  | none => "None"
  | some v => fstr v

/-- Python truthiness of the optional `org_id` (`org_id if org_id else ''`). -/
def orgTruthy : Option JVal → Bool
  | none => false
  | some v => v.truthy

/-- Path concatenation (`os.path.join`); the separator is normalized to `/`,
which no claim distinguishes. -/
def pyJoin (a b : String) : String := a ++ "/" ++ b

/-- `get_config_file_path` (lines 31-52).  A truthy `config_file` is returned
verbatim.  Otherwise the OS-convention directory is computed — raising
TypeError when `PROGRAMDATA` is unset on Windows (`os.path.join(None, ...)`),
and NameError on an unrecognized OS (`config_dir` is then unbound at
line 42) — created if missing (propagating a raised OSError on failure), and
`config.json` appended.  Errors carry the filesystem state at raise time. -/
def get_config_file_path (env : OsEnv) (orgId : Option JVal)
    (configFile : Option String) (fs : FS) : Except (PyErr × FS) (String × FS) :=
  if optStrTruthy configFile then
    .ok (configFile.getD "", fs)
  else
    match
      (if env.osType = "Windows" then
        match env.programData with
        | none => Except.error PyErr.typeError
        | some pd =>
          Except.ok (pyJoin (pyJoin pd "RewstRemoteAgent")
            (if orgTruthy orgId then fstrOpt orgId else ""))
      else if env.osType = "Linux" then
        Except.ok ("/etc/rewst_remote_agent/" ++ fstrOpt orgId)
      else if env.osType = "Darwin" then
        Except.ok (env.home ++ "/Library/Application Support/RewstRemoteAgent/"
          ++ fstrOpt orgId)
      else
        Except.error PyErr.nameError : Except PyErr String)
    with
    | .error e => .error (e, fs)
    | .ok configDir =>
      if fs.dirs.contains configDir then
        .ok (pyJoin configDir "config.json", fs)
      else if env.mkdirOk then
        .ok (pyJoin configDir "config.json", { fs with dirs := configDir :: fs.dirs })
      else
        .error (PyErr.osError, fs)

/-- `save_configuration` (lines 55-59): look up `config_data["rewst_org_id"]`
(KeyError — propagated — when absent, before any path resolution), resolve
the path, then overwrite the file with the indented-JSON serialization. -/
def save_configuration (env : OsEnv) (configData : List (String × JVal))
    (configFile : Option String) (fs : FS) : Except (PyErr × FS) FS :=
  match configData.lookup "rewst_org_id" with
  | none => .error (PyErr.keyError, fs)
  | some orgId =>
    match get_config_file_path env (some orgId) configFile fs with
    | .error e => .error e
    | .ok (path, fs2) => .ok (fs2.setFile path (FileContent.jsonText (.obj configData)))

/-- `load_configuration` (lines 62-68): resolve the path, `open` and
`json.load` it.  Only FileNotFoundError is caught (returning Python `None`,
i.e. `JVal.null`); an unreadable file or malformed JSON propagates.  Note the
returned sentinel is the very value `json.load` produces for a file whose
content is the JSON text `null`. -/
def load_configuration (env : OsEnv) (orgId : Option JVal)
    (configFile : Option String) (fs : FS) : Except (PyErr × FS) (JVal × FS) :=
  match get_config_file_path env orgId configFile fs with
  | .error e => .error e
  | .ok (path, fs2) =>
    match fs2.getFile path with
    | none => .ok (JVal.null, fs2)
    | some .unreadable => .error (PyErr.permissionError, fs2)
    | some .malformed => .error (PyErr.jsonDecodeError, fs2)
    | some (.jsonText v) => .ok (v, fs2)

/-- Modelled from the spec (refinement comparison for claim C3): the
HostDescriptor key list as §3 of the spec states it. -/
def specHostDescriptorKeys : List String :=
  ["agent_version", "executable_path", "hostname", "mac_address",
   "os_description", "cpu_model", "ram_gb", "is_domain_controller",
   "is_entra_connect_server", "ad_domain", "entra_domain"]

/-- A 200 response whose JSON body is `{"configuration": D}`. -/
def good200 (D : List (String × JVal)) : Response :=
  .httpResp 200 (.obj [("configuration", .obj D)])

/-- A concrete well-formed configuration document (all REQUIRED_KEYS). -/
def cfgD : List (String × JVal) :=
  [("azure_iot_hub_host", .str "h"), ("device_id", .str "d"),
   ("shared_access_key", .str "k"), ("rewst_engine_host", .str "e"),
   ("rewst_org_id", .str "o")]

/-- A concrete host environment (AD and Entra domains unavailable). -/
def cHostEnv : HostEnv :=
  { version := "0.1", executablePath := "/usr/bin/python3", hostname := "host1",
    uuidNode := 0, platformDesc := "Linux-6.0", cpuModel := "x86_64",
    ramBytes := 0, isAdDomainController := false, isEntraConnectServer := false,
    adDomain := none, entraDomain := none }

/-- A concrete OS environment. -/
def cOsEnv : OsEnv :=
  { osType := "Linux", programData := none, home := "/root", mkdirOk := true }

/-- A filesystem with one file at `/tmp/config.json` whose content is the
JSON text `null`. -/
def fsNull : FS :=
  { dirs := [], files := [("/tmp/config.json", FileContent.jsonText JVal.null)] }

/-! ### Trace algebra -/

@[simp]
theorem Trace.append_mk (s1 l1 g1 s2 l2 g2 : _) :
    (Trace.mk s1 l1 g1 ++ Trace.mk s2 l2 g2) = Trace.mk (s1 ++ s2) (l1 ++ l2) (g1 ++ g2) :=
  rfl

@[simp]
theorem Trace.nil_append (t : Trace) : Trace.nil ++ t = t := by
  cases t; simp [Trace.nil]

@[simp]
theorem Trace.append_nil (t : Trace) : t ++ Trace.nil = t := by
  cases t; simp [Trace.nil]

theorem Trace.append_assoc (a b c : Trace) : a ++ b ++ c = a ++ (b ++ c) := by
  cases a; cases b; cases c; simp

@[simp]
theorem Trace.sent_append (a b : Trace) : (a ++ b).sent = a.sent ++ b.sent := rfl

@[simp]
theorem Trace.sleeps_append (a b : Trace) : (a ++ b).sleeps = a.sleeps ++ b.sleeps := rfl

@[simp]
theorem Trace.logs_append (a b : Trace) : (a ++ b).logs = a.logs ++ b.logs := rfl

/-! ### Step-level facts about classification -/

/-- A retry-worthy attempt's classification is determined by `stepLog` and a
sleep flag realizing `stepSleep`. -/
theorem classify_of_isRetryStep {r : Response} (h : isRetryStep r = true) :
    ∃ s, classify r = .ok (.retry (stepLog r) s) ∧
      ∀ i, stepSleep i r = if s then [i] else [] := by
  unfold isRetryStep at h
  rcases hc : classify r with e | c
  · rw [hc] at h; simp at h
  · cases c with
    | success cfg => rw [hc] at h; simp at h
    | retry l s =>
      refine ⟨s, ?_, fun i => ?_⟩
      · unfold stepLog; rw [hc]
      · unfold stepSleep; rw [hc]; cases s <;> simp

/-! ### Unfolding equations for `runPhase` -/

theorem runPhase_nil_none (rq : Request) (i : Nat) :
    runPhase rq i [] none = (Trace.nil, PhaseExit.out .pending) := rfl

theorem runPhase_nil_succ (rq : Request) (i n : Nat) :
    runPhase rq i [] (some (n + 1)) = (Trace.nil, PhaseExit.out .pending) := rfl

theorem runPhase_zero (rq : Request) (i : Nat) (rs : List Response) :
    runPhase rq i rs (some 0) = (Trace.nil, PhaseExit.exhausted rs) := by
  cases rs <;> rfl

theorem runPhase_cons_retry_none (rq : Request) (i : Nat) (r : Response)
    (rs : List Response) {l : LogEvent} {s : Bool}
    (hc : classify r = .ok (.retry l s)) :
    runPhase rq i (r :: rs) none =
      (Trace.mk [rq] (if s then [i] else []) [l] ++ (runPhase rq i rs none).1,
       (runPhase rq i rs none).2) := by
  simp [runPhase, hc]

theorem runPhase_cons_retry_succ (rq : Request) (i : Nat) (r : Response)
    (rs : List Response) (n : Nat) {l : LogEvent} {s : Bool}
    (hc : classify r = .ok (.retry l s)) :
    runPhase rq i (r :: rs) (some (n + 1)) =
      (Trace.mk [rq] (if s then [i] else []) [l] ++ (runPhase rq i rs (some n)).1,
       (runPhase rq i rs (some n)).2) := by
  simp [runPhase, hc]

theorem runPhase_cons_success_succ (rq : Request) (i : Nat) (r : Response)
    (rs : List Response) (n : Nat) {cfg : JVal}
    (hc : classify r = .ok (.success cfg)) :
    runPhase rq i (r :: rs) (some (n + 1)) =
      (Trace.mk [rq] [] [], PhaseExit.out (.success cfg)) := by
  simp [runPhase, hc]

theorem runPhase_cons_crash_succ (rq : Request) (i : Nat) (r : Response)
    (rs : List Response) (n : Nat) {e : PyErr}
    (hc : classify r = .error e) :
    runPhase rq i (r :: rs) (some (n + 1)) =
      (Trace.mk [rq] [] [], PhaseExit.out (.crash e)) := by
  simp [runPhase, hc]

/-! ### Consuming a run of retry-worthy attempts -/

/-- Within a phase, a block of retry-worthy attempts not exceeding the budget
is consumed wholesale: it contributes its `preTrace` and leaves the rest of
the attempts to a correspondingly reduced budget. -/
theorem runPhase_retry_block (rq : Request) (i : Nat) :
    ∀ (pre rest : List Response) (b : Nat),
      (∀ r ∈ pre, isRetryStep r = true) → pre.length ≤ b →
      runPhase rq i (pre ++ rest) (some b) =
        (preTrace rq i pre ++ (runPhase rq i rest (some (b - pre.length))).1,
         (runPhase rq i rest (some (b - pre.length))).2)
  | [], rest, b, _, _ => by simp [preTrace]
  | r :: pre, rest, b, hall, hlen => by
    obtain ⟨n, rfl⟩ : ∃ n, b = n + 1 := by
      cases b with
      | zero => exact absurd hlen (by simp)
      | succ n => exact ⟨n, rfl⟩
    obtain ⟨s, hc, hs⟩ := classify_of_isRetryStep (hall r (by simp))
    have ih := runPhase_retry_block rq i pre rest n
      (fun x hx => hall x (by simp [hx])) (by simpa using hlen)
    rw [List.cons_append, runPhase_cons_retry_succ rq i r (pre ++ rest) n hc, ih]
    simp only [preTrace, hs i, List.length_cons, Nat.succ_sub_succ, Trace.append_assoc]

/-- Same consumption fact for the unbounded (`float('inf')`) budget. -/
theorem runPhase_retry_block_none (rq : Request) (i : Nat) :
    ∀ (pre rest : List Response),
      (∀ r ∈ pre, isRetryStep r = true) →
      runPhase rq i (pre ++ rest) none =
        (preTrace rq i pre ++ (runPhase rq i rest none).1,
         (runPhase rq i rest none).2)
  | [], rest, _ => by simp [preTrace]
  | r :: pre, rest, hall => by
    obtain ⟨s, hc, hs⟩ := classify_of_isRetryStep (hall r (by simp))
    have ih := runPhase_retry_block_none rq i pre rest
      (fun x hx => hall x (by simp [hx]))
    rw [List.cons_append, runPhase_cons_retry_none rq i r (pre ++ rest) hc, ih]
    simp only [preTrace, hs i]
    rw [Trace.append_assoc]

/-! ### Composing phases -/

theorem runPhases_out (rq : Request) (i : Nat) (b : Option Nat)
    (ps : List (Nat × Option Nat)) (rs : List Response) {t : Trace}
    {o : FetchOutcome} (h : runPhase rq i rs b = (t, PhaseExit.out o)) :
    runPhases rq ((i, b) :: ps) rs = (t, o) := by
  simp [runPhases, h]

theorem runPhases_exhausted (rq : Request) (i : Nat) (b : Option Nat)
    (ps : List (Nat × Option Nat)) (rs : List Response) {t : Trace}
    {rest : List Response} (h : runPhase rq i rs b = (t, PhaseExit.exhausted rest)) :
    runPhases rq ((i, b) :: ps) rs =
      (t ++ Trace.mk [] [] [LogEvent.phaseAdvanceInfo i] ++ (runPhases rq ps rest).1,
       (runPhases rq ps rest).2) := by
  simp [runPhases, h]

/-! ### Computing `preTrace` components -/

theorem preTrace_sent (rq : Request) (i : Nat) :
    ∀ l : List Response, (preTrace rq i l).sent = List.replicate l.length rq
  | [] => rfl
  | r :: l => by
    simp [preTrace, preTrace_sent rq i l, List.replicate_succ]

theorem preTrace_sleeps_const (rq : Request) (i : Nat) :
    ∀ l : List Response, (∀ r ∈ l, stepSleep i r = [i]) →
      (preTrace rq i l).sleeps = List.replicate l.length i
  | [], _ => rfl
  | r :: l, h => by
    simp [preTrace, preTrace_sleeps_const rq i l (fun x hx => h x (by simp [hx])),
      h r (by simp), List.replicate_succ]

theorem preTrace_sleeps_nil (rq : Request) (i : Nat) :
    ∀ l : List Response, (∀ r ∈ l, stepSleep i r = []) →
      (preTrace rq i l).sleeps = []
  | [], _ => rfl
  | r :: l, h => by
    simp [preTrace, preTrace_sleeps_nil rq i l (fun x hx => h x (by simp [hx])),
      h r (by simp)]

theorem preTrace_logs_map (rq : Request) (i : Nat) :
    ∀ l : List Response, (preTrace rq i l).logs = l.map stepLog
  | [] => rfl
  | r :: l => by simp [preTrace, preTrace_logs_map rq i l]

theorem preTrace_logs_const (rq : Request) (i : Nat) {e : LogEvent} :
    ∀ l : List Response, (∀ r ∈ l, stepLog r = e) →
      (preTrace rq i l).logs = List.replicate l.length e
  | [], _ => rfl
  | r :: l, h => by
    simp [preTrace, preTrace_logs_const rq i l (fun x hx => h x (by simp [hx])),
      h r (by simp), List.replicate_succ]

/-! ### Classifying a valid 200 response -/

theorem classify_good200 {D : List (String × JVal)}
    (h : ∀ k ∈ REQUIRED_KEYS, containsKey D k = true) :
    classify (good200 D) = .ok (.success (.obj D)) := by
  have h1 := h "azure_iot_hub_host" (by decide)
  have h2 := h "device_id" (by decide)
  have h3 := h "shared_access_key" (by decide)
  have h4 := h "rewst_engine_host" (by decide)
  have h5 := h "rewst_org_id" (by decide)
  simp only [containsKey] at h1 h2 h3 h4 h5
  have hne : D ≠ [] := by
    intro hD
    rw [hD] at h1
    simp at h1
  have htr : JVal.truthy (.obj D) = true := by
    cases D with
    | nil => exact absurd rfl hne
    | cons a l => simp [JVal.truthy]
  have hall : pyAllIn (JVal.obj D) REQUIRED_KEYS = .ok true := by
    simp only [REQUIRED_KEYS, pyAllIn, pyContains, h1, h2, h3, h4, h5]
  have hg : pyGet (JVal.obj [("configuration", JVal.obj D)]) "configuration" =
      .ok (some (JVal.obj D)) := rfl
  simp only [good200, classify, hg, htr, hall]
  norm_num

/-! ### Success at the end of a retry run within the first phase -/

/-- If the first `pre.length ≤ 11` attempts are all retry-worthy and the next
response classifies as success, the whole fetch resolves inside the first
phase: the trace is the retry run's trace followed by one final request with
no further sleep, and the outcome is that success. -/
theorem fetch_success_after_retries (env : HostEnv) (secret : Option String)
    (pre : List Response) (r : Response) (rest : List Response) {cfg : JVal}
    (hall : ∀ x ∈ pre, isRetryStep x = true) (hlen : pre.length ≤ 11)
    (hr : classify r = .ok (.success cfg)) :
    fetch_configuration env secret (pre ++ r :: rest) =
      (preTrace (requestOf env secret) 5 pre ++ Trace.mk [requestOf env secret] [] [],
       .success cfg) := by
  set rq := requestOf env secret with hrq
  obtain ⟨m, hm⟩ : ∃ m, 12 - pre.length = m + 1 := ⟨11 - pre.length, by omega⟩
  have hb : runPhase rq 5 (pre ++ r :: rest) (some 12) =
      (preTrace rq 5 pre ++ Trace.mk [rq] [] [], PhaseExit.out (.success cfg)) := by
    rw [runPhase_retry_block rq 5 pre (r :: rest) 12 hall (by omega), hm,
      runPhase_cons_success_succ rq 5 r rest m hr]
  show runPhases rq retryIntervals (pre ++ r :: rest) = _
  rw [retryIntervals, runPhases_out rq 5 (some 12) _ _ hb]

/-! ### Phases fed only retry-worthy attempts -/

/-- An unbounded phase fed only retry-worthy attempts never exhausts: it
consumes everything and is still iterating. -/
theorem runPhase_all_retry_none (rq : Request) (i : Nat) (rs : List Response)
    (h : ∀ r ∈ rs, isRetryStep r = true) :
    runPhase rq i rs none = (preTrace rq i rs, PhaseExit.out .pending) := by
  have := runPhase_retry_block_none rq i rs [] h
  rw [List.append_nil] at this
  rw [this, runPhase_nil_none]
  simp

/-- A bounded phase fed only retry-worthy attempts either consumes them all
(still iterating) or exhausts its budget, handing the next phase a remainder
that is again all retry-worthy. -/
theorem runPhase_all_retry_some (rq : Request) (i : Nat) (rs : List Response)
    (b : Nat) (h : ∀ r ∈ rs, isRetryStep r = true) :
    (∃ t, runPhase rq i rs (some b) = (t, PhaseExit.out .pending)) ∨
    (∃ t rest, runPhase rq i rs (some b) = (t, PhaseExit.exhausted rest) ∧
      ∀ r ∈ rest, isRetryStep r = true) := by
  by_cases hb : b ≤ rs.length
  · right
    have hsplit : rs.take b ++ rs.drop b = rs := List.take_append_drop b rs
    have hlen : (rs.take b).length = b := by
      rw [List.length_take]
      omega
    have hblock := runPhase_retry_block rq i (rs.take b) (rs.drop b) b
      (fun x hx => h x (List.take_subset _ _ hx)) (by omega)
    rw [hsplit, hlen, Nat.sub_self, runPhase_zero] at hblock
    refine ⟨preTrace rq i (rs.take b) ++ Trace.nil, rs.drop b, hblock,
      fun x hx => h x (List.drop_subset _ _ hx)⟩
  · left
    push_neg at hb
    have hblock := runPhase_retry_block rq i rs [] b h (by omega)
    rw [List.append_nil] at hblock
    obtain ⟨m, hm⟩ : ∃ m, b - rs.length = m + 1 := ⟨b - rs.length - 1, by omega⟩
    rw [hm, runPhase_nil_succ] at hblock
    exact ⟨preTrace rq i rs ++ Trace.nil, hblock⟩

/-! ### Every request sent is the constant session request -/

theorem runPhase_sent_const (rq : Request) (i : Nat) :
    ∀ (rs : List Response) (b : Option Nat),
      ∀ x ∈ (runPhase rq i rs b).1.sent, x = rq
  | rs, some 0 => by simp [runPhase_zero, Trace.nil]
  | [], none => by simp [runPhase_nil_none, Trace.nil]
  | [], some (n + 1) => by simp [runPhase_nil_succ, Trace.nil]
  | r :: rs, none => by
    rcases hc : classify r with e | c
    · simp [runPhase, hc]
    · cases c with
      | success cfg => simp [runPhase, hc]
      | retry l s =>
        intro x hx
        rw [runPhase_cons_retry_none rq i r rs hc] at hx
        simp only [Trace.sent_append] at hx
        rcases List.mem_append.mp hx with hx | hx
        · simpa using hx
        · exact runPhase_sent_const rq i rs none x hx
  | r :: rs, some (n + 1) => by
    rcases hc : classify r with e | c
    · simp [runPhase, hc]
    · cases c with
      | success cfg => simp [runPhase, hc]
      | retry l s =>
        intro x hx
        rw [runPhase_cons_retry_succ rq i r rs n hc] at hx
        simp only [Trace.sent_append] at hx
        rcases List.mem_append.mp hx with hx | hx
        · simpa using hx
        · exact runPhase_sent_const rq i rs (some n) x hx

theorem runPhases_sent_const (rq : Request) :
    ∀ (ps : List (Nat × Option Nat)) (rs : List Response),
      ∀ x ∈ (runPhases rq ps rs).1.sent, x = rq
  | [], rs => by simp [runPhases, Trace.nil]
  | (i, b) :: ps, rs => by
    intro x hx
    rcases he : runPhase rq i rs b with ⟨t, ex⟩
    cases ex with
    | out o =>
      rw [runPhases_out rq i b ps rs he] at hx
      exact runPhase_sent_const rq i rs b x (by rw [he]; exact hx)
    | exhausted rest =>
      rw [runPhases_exhausted rq i b ps rs he] at hx
      simp only [Trace.sent_append, List.append_nil] at hx
      rcases List.mem_append.mp hx with hx | hx
      · exact runPhase_sent_const rq i rs b x (by rw [he]; exact hx)
      · exact runPhases_sent_const rq ps rest x hx

/-- Every request issued during a fetch session is the constant
`requestOf env secret`. -/
theorem fetch_sent_const (env : HostEnv) (secret : Option String)
    (responses : List Response) :
    ∀ x ∈ (fetch_configuration env secret responses).1.sent,
      x = requestOf env secret :=
  runPhases_sent_const (requestOf env secret) retryIntervals responses

theorem Trace.eq_of_parts {t1 t2 : Trace} (h1 : t1.sent = t2.sent)
    (h2 : t1.sleeps = t2.sleeps) (h3 : t1.logs = t2.logs) : t1 = t2 := by
  cases t1; cases t2; simp_all

/-! ### Claims -/

/-- C2 (confirmed).  For every ConfigurationDocument D whose key set is a
superset of REQUIRED_KEYS, if the endpoint responds to the first attempt with
status 200 and JSON body `{configuration: D}`, then fetch returns D unchanged
immediately: the whole trace is exactly one request, no sleep, no log, and the
outcome is `success D`. -/
theorem c2_valid_first_response_returns_immediately (env : HostEnv)
    (secret : Option String) (D : List (String × JVal)) (rest : List Response)
    (h : ∀ k ∈ REQUIRED_KEYS, containsKey D k = true) :
    fetch_configuration env secret (good200 D :: rest) =
      (Trace.mk [requestOf env secret] [] [], .success (.obj D)) := by
  have hx := fetch_success_after_retries env secret [] (good200 D) rest
    (by simp) (by simp) (classify_good200 h)
  simpa [preTrace] using hx

/-- Witness for C2 at a concrete document and environment. -/
theorem c2_valid_first_response_returns_immediately_witness :
    fetch_configuration cHostEnv none [good200 cfgD] =
      (Trace.mk [requestOf cHostEnv none] [] [], .success (.obj cfgD)) :=
  c2_valid_first_response_returns_immediately cHostEnv none cfgD [] (by decide)

/-- C4 (confirmed).  If the endpoint returns 303 on each of the first N < 12
attempts and a valid 200 on attempt N+1, fetch succeeds after exactly N+1
requests, having slept exactly N times of 5 seconds, without ever advancing
to the second phase — the logs are N "still processing" records with no
`phaseAdvanceInfo`, so the first phase was never exhausted. -/
theorem c4_303_run_resolves_in_first_phase (env : HostEnv)
    (secret : Option String) (N : Nat) (pre : List Response)
    (D : List (String × JVal)) (rest : List Response)
    (hN : N < 12) (hlen : pre.length = N)
    (h303 : ∀ r ∈ pre, ∃ body, r = Response.httpResp 303 body)
    (hD : ∀ k ∈ REQUIRED_KEYS, containsKey D k = true) :
    fetch_configuration env secret (pre ++ good200 D :: rest) =
      (Trace.mk (List.replicate (N + 1) (requestOf env secret))
        (List.replicate N 5) (List.replicate N LogEvent.processingInfo),
       .success (.obj D)) := by
  have hstep : ∀ r ∈ pre, classify r = .ok (.retry .processingInfo true) := by
    intro r hr
    obtain ⟨body, rfl⟩ := h303 r hr
    rfl
  have hall : ∀ r ∈ pre, isRetryStep r = true := by
    intro r hr; unfold isRetryStep; rw [hstep r hr]
  have hx := fetch_success_after_retries env secret pre (good200 D) rest hall
    (by omega) (classify_good200 hD)
  rw [hx]
  have ht : preTrace (requestOf env secret) 5 pre ++
      Trace.mk [requestOf env secret] [] [] =
      Trace.mk (List.replicate (N + 1) (requestOf env secret))
        (List.replicate N 5) (List.replicate N LogEvent.processingInfo) := by
    refine Trace.eq_of_parts ?_ ?_ ?_
    · simp [preTrace_sent, hlen, List.replicate_succ']
    · have hs := preTrace_sleeps_const (requestOf env secret) 5 pre
        (fun r hr => by unfold stepSleep; rw [hstep r hr])
      simp [hs, hlen]
    · have hl := preTrace_logs_const (requestOf env secret) 5 pre
        (fun r hr => by unfold stepLog; rw [hstep r hr])
      simp [hl, hlen]
  rw [ht]

/-- Witness for C4 with N = 2 concrete 303 responses. -/
theorem c4_303_run_resolves_in_first_phase_witness :
    fetch_configuration cHostEnv none
      ([Response.httpResp 303 JVal.null, Response.httpResp 303 JVal.null] ++
        good200 cfgD :: []) =
      (Trace.mk (List.replicate 3 (requestOf cHostEnv none))
        (List.replicate 2 5) (List.replicate 2 LogEvent.processingInfo),
       .success (.obj cfgD)) :=
  c4_303_run_resolves_in_first_phase cHostEnv none 2
    [Response.httpResp 303 JVal.null, Response.httpResp 303 JVal.null] cfgD []
    (by decide) (by decide)
    (by intro r hr; fin_cases hr <;> exact ⟨JVal.null, rfl⟩)
    (by decide)

/-- C6 (confirmed).  A 400 or 401 response is classified as an authorization
error log plus an ordinary sleeping retry — fetch neither returns nor raises
on it, and the loop proceeds to the next attempt per the phase schedule: a
run of N ≤ 11 such responses followed by a valid 200 yields N "not
authorized" error logs, N five-second sleeps, and success on attempt N+1. -/
theorem c6_auth_rejection_logged_and_retried (env : HostEnv)
    (secret : Option String) (pre : List Response)
    (D : List (String × JVal)) (rest : List Response)
    (hlen : pre.length ≤ 11)
    (hauth : ∀ r ∈ pre, ∃ status body,
      (status = 400 ∨ status = 401) ∧ r = Response.httpResp status body)
    (hD : ∀ k ∈ REQUIRED_KEYS, containsKey D k = true) :
    (∀ body, classify (Response.httpResp 400 body) =
        .ok (.retry .notAuthorizedError true) ∧
      classify (Response.httpResp 401 body) =
        .ok (.retry .notAuthorizedError true)) ∧
    fetch_configuration env secret (pre ++ good200 D :: rest) =
      (Trace.mk (List.replicate (pre.length + 1) (requestOf env secret))
        (List.replicate pre.length 5)
        (List.replicate pre.length LogEvent.notAuthorizedError),
       .success (.obj D)) := by
  refine ⟨fun body => ⟨rfl, rfl⟩, ?_⟩
  have hstep : ∀ r ∈ pre, classify r = .ok (.retry .notAuthorizedError true) := by
    intro r hr
    obtain ⟨status, body, hs, rfl⟩ := hauth r hr
    rcases hs with rfl | rfl <;> rfl
  have hall : ∀ r ∈ pre, isRetryStep r = true := by
    intro r hr; unfold isRetryStep; rw [hstep r hr]
  have hx := fetch_success_after_retries env secret pre (good200 D) rest hall
    hlen (classify_good200 hD)
  rw [hx]
  have ht : preTrace (requestOf env secret) 5 pre ++
      Trace.mk [requestOf env secret] [] [] =
      Trace.mk (List.replicate (pre.length + 1) (requestOf env secret))
        (List.replicate pre.length 5)
        (List.replicate pre.length LogEvent.notAuthorizedError) := by
    refine Trace.eq_of_parts ?_ ?_ ?_
    · simp [preTrace_sent, List.replicate_succ']
    · have hs := preTrace_sleeps_const (requestOf env secret) 5 pre
        (fun r hr => by unfold stepSleep; rw [hstep r hr])
      simp [hs]
    · have hl := preTrace_logs_const (requestOf env secret) 5 pre
        (fun r hr => by unfold stepLog; rw [hstep r hr])
      simp [hl]
  rw [ht]

/-- Witness for C6 with one 401 and one 400 response. -/
theorem c6_auth_rejection_logged_and_retried_witness :
    (∀ body, classify (Response.httpResp 400 body) =
        .ok (.retry .notAuthorizedError true) ∧
      classify (Response.httpResp 401 body) =
        .ok (.retry .notAuthorizedError true)) ∧
    fetch_configuration cHostEnv none
      ([Response.httpResp 401 JVal.null, Response.httpResp 400 JVal.null] ++
        good200 cfgD :: []) =
      (Trace.mk (List.replicate 3 (requestOf cHostEnv none))
        (List.replicate 2 5) (List.replicate 2 LogEvent.notAuthorizedError),
       .success (.obj cfgD)) :=
  c6_auth_rejection_logged_and_retried cHostEnv none
    [Response.httpResp 401 JVal.null, Response.httpResp 400 JVal.null] cfgD []
    (by decide)
    (by intro r hr
        fin_cases hr
        · exact ⟨401, JVal.null, Or.inr rfl, rfl⟩
        · exact ⟨400, JVal.null, Or.inl rfl, rfl⟩)
    (by decide)

/-- C1 counterexample.  A timed-out attempt followed by a valid 200: two
requests are sent and the failure is logged, but the sleeps list is empty —
the claimed inter-attempt sleep of the phase's `interval_seconds` does not
happen after a transport failure (`continue` skips line 126). -/
theorem c1_counterexample :
    (fetch_configuration cHostEnv none [Response.timeout, good200 cfgD]).1.sleeps
        = [] ∧
    (fetch_configuration cHostEnv none
        [Response.timeout, good200 cfgD]).1.sent.length = 2 ∧
    (fetch_configuration cHostEnv none [Response.timeout, good200 cfgD]).1.logs
        = [LogEvent.timeoutWarning] ∧
    (fetch_configuration cHostEnv none [Response.timeout, good200 cfgD]).2
        = .success (.obj cfgD) :=
  ⟨rfl, rfl, rfl, rfl⟩

/-- C1 (amended).  A transport failure or timeout is logged and treated as
retry-worthy (it consumes an attempt from the phase budget), but the retry is
immediate: the `continue` skips the inter-attempt sleep, unlike every
response-status outcome.  A run of such failures followed by a valid 200
yields one request per attempt, the corresponding warning logs, and an empty
sleeps list. -/
theorem c1_transport_failures_retry_without_sleep (env : HostEnv)
    (secret : Option String) (pre : List Response)
    (D : List (String × JVal)) (rest : List Response)
    (hlen : pre.length ≤ 11)
    (htr : ∀ r ∈ pre, r = Response.timeout ∨ r = Response.requestError)
    (hD : ∀ k ∈ REQUIRED_KEYS, containsKey D k = true) :
    fetch_configuration env secret (pre ++ good200 D :: rest) =
      (Trace.mk (List.replicate (pre.length + 1) (requestOf env secret)) []
        (pre.map stepLog), .success (.obj D)) ∧
    stepLog Response.timeout = LogEvent.timeoutWarning ∧
    stepLog Response.requestError = LogEvent.networkWarning := by
  refine ⟨?_, rfl, rfl⟩
  have hstep : ∀ r ∈ pre, ∃ l, classify r = .ok (.retry l false) := by
    intro r hr
    rcases htr r hr with rfl | rfl
    · exact ⟨.timeoutWarning, rfl⟩
    · exact ⟨.networkWarning, rfl⟩
  have hall : ∀ r ∈ pre, isRetryStep r = true := by
    intro r hr
    obtain ⟨l, hl⟩ := hstep r hr
    unfold isRetryStep; rw [hl]
  have hx := fetch_success_after_retries env secret pre (good200 D) rest hall
    hlen (classify_good200 hD)
  rw [hx]
  have ht : preTrace (requestOf env secret) 5 pre ++
      Trace.mk [requestOf env secret] [] [] =
      Trace.mk (List.replicate (pre.length + 1) (requestOf env secret)) []
        (pre.map stepLog) := by
    refine Trace.eq_of_parts ?_ ?_ ?_
    · simp [preTrace_sent, List.replicate_succ']
    · have hs := preTrace_sleeps_nil (requestOf env secret) 5 pre
        (fun r hr => by
          obtain ⟨l, hl⟩ := hstep r hr
          unfold stepSleep; rw [hl])
      simp [hs]
    · simp [preTrace_logs_map]
  rw [ht]

/-- Witness for the amended C1 with one timeout and one network error. -/
theorem c1_transport_failures_retry_without_sleep_witness :
    fetch_configuration cHostEnv none
      ([Response.timeout, Response.requestError] ++ good200 cfgD :: []) =
      (Trace.mk (List.replicate 3 (requestOf cHostEnv none)) []
        ([Response.timeout, Response.requestError].map stepLog),
       .success (.obj cfgD)) ∧
    stepLog Response.timeout = LogEvent.timeoutWarning ∧
    stepLog Response.requestError = LogEvent.networkWarning :=
  c1_transport_failures_retry_without_sleep cHostEnv none
    [Response.timeout, Response.requestError] cfgD []
    (by decide)
    (by intro r hr
        fin_cases hr
        · exact Or.inl rfl
        · exact Or.inr rfl)
    (by decide)

/-- C3 counterexample.  At a concrete environment whose AD and Entra lookups
are unavailable, the body fetch sends is `collectHostInfo cHostEnv`, whose
key list differs from the spec's §3 HostDescriptor key list (the source uses
`operating_system` and `is_ad_domain_controller`), and whose `ad_domain` and
`entra_domain` entries are PRESENT with JSON value `null` rather than absent. -/
theorem c3_counterexample :
    (fetch_configuration cHostEnv none [good200 cfgD]).1.sent.map Request.body
        = [JVal.obj (collectHostInfo cHostEnv)] ∧
    (collectHostInfo cHostEnv).map Prod.fst ≠ specHostDescriptorKeys ∧
    cHostEnv.adDomain = none ∧ cHostEnv.entraDomain = none ∧
    (collectHostInfo cHostEnv).lookup "ad_domain" = some JVal.null ∧
    (collectHostInfo cHostEnv).lookup "entra_domain" = some JVal.null :=
  ⟨rfl, by decide, rfl, rfl, rfl, rfl⟩

/-- C3 (amended).  Every request fetch sends is a POST whose JSON body is the
`host_info` object, whose key list is exactly `agent_version,
executable_path, hostname, mac_address, operating_system, cpu_model, ram_gb,
is_ad_domain_controller, is_entra_connect_server, ad_domain, entra_domain`
(all always present), with `ad_domain` and `entra_domain` carrying JSON
`null` — not being absent — when the corresponding lookup is unavailable. -/
theorem c3_request_body_key_set (env : HostEnv) (secret : Option String)
    (responses : List Response) (x : Request)
    (hx : x ∈ (fetch_configuration env secret responses).1.sent) :
    x.method = "POST" ∧
    x.body = JVal.obj (collectHostInfo env) ∧
    (collectHostInfo env).map Prod.fst =
      ["agent_version", "executable_path", "hostname", "mac_address",
       "operating_system", "cpu_model", "ram_gb", "is_ad_domain_controller",
       "is_entra_connect_server", "ad_domain", "entra_domain"] ∧
    (collectHostInfo env).lookup "ad_domain" = some (optToJVal env.adDomain) ∧
    (collectHostInfo env).lookup "entra_domain" = some (optToJVal env.entraDomain) := by
  have hxr := fetch_sent_const env secret responses x hx
  subst hxr
  exact ⟨rfl, rfl, rfl, rfl, rfl⟩

/-- Witness for the amended C3 at a concrete session. -/
theorem c3_request_body_key_set_witness :
    (requestOf cHostEnv none).method = "POST" ∧
    (requestOf cHostEnv none).body = JVal.obj (collectHostInfo cHostEnv) ∧
    (collectHostInfo cHostEnv).map Prod.fst =
      ["agent_version", "executable_path", "hostname", "mac_address",
       "operating_system", "cpu_model", "ram_gb", "is_ad_domain_controller",
       "is_entra_connect_server", "ad_domain", "entra_domain"] ∧
    (collectHostInfo cHostEnv).lookup "ad_domain"
        = some (optToJVal cHostEnv.adDomain) ∧
    (collectHostInfo cHostEnv).lookup "entra_domain"
        = some (optToJVal cHostEnv.entraDomain) :=
  c3_request_body_key_set cHostEnv none [good200 cfgD] _
    (List.mem_singleton.mpr rfl)

/-- C5 counterexample.  A single 200 response whose JSON body is the string
"boom" (not an object): `data.get('configuration')` raises an uncaught
AttributeError, so the call neither keeps iterating nor returns a valid
configuration — it crashes — even though no attempt ever yielded a
successful configuration. -/
theorem c5_counterexample :
    (fetch_configuration cHostEnv none
        [Response.httpResp 200 (JVal.str "boom")]).2 =
      FetchOutcome.crash PyErr.attributeError ∧
    classify (Response.httpResp 200 (JVal.str "boom")) =
      .error PyErr.attributeError :=
  ⟨rfl, rfl⟩

/-- C5 (amended).  As long as every attempt's outcome is classified as
retry-worthy (no success, and no 200 body on which the uncaught
AttributeError/TypeError of lines 116-117 fires), fetch never returns a
failure result and never gives up: after any finite number of attempts the
loop is still iterating (`pending`) — in particular the outcome is never
`gaveUp`, because the third phase's attempt budget is unbounded. -/
theorem c5_retry_loop_never_gives_up (env : HostEnv) (secret : Option String)
    (responses : List Response)
    (h : ∀ r ∈ responses, isRetryStep r = true) :
    (fetch_configuration env secret responses).2 = FetchOutcome.pending := by
  show (runPhases (requestOf env secret) retryIntervals responses).2 = _
  set rq := requestOf env secret with hrq
  rw [retryIntervals]
  rcases runPhase_all_retry_some rq 5 responses 12 h with ⟨t, ht⟩ | ⟨t, rest1, ht, h1⟩
  · rw [runPhases_out rq 5 (some 12) _ _ ht]
  · rw [runPhases_exhausted rq 5 (some 12) _ _ ht]
    show (runPhases rq [(60, some 60), (300, none)] rest1).2 = _
    rcases runPhase_all_retry_some rq 60 rest1 60 h1 with ⟨t2, ht2⟩ | ⟨t2, rest2, ht2, h2⟩
    · rw [runPhases_out rq 60 (some 60) _ _ ht2]
    · rw [runPhases_exhausted rq 60 (some 60) _ _ ht2]
      show (runPhases rq [(300, none)] rest2).2 = _
      rw [runPhases_out rq 300 none _ _ (runPhase_all_retry_none rq 300 rest2 h2)]

/-- Witness for the amended C5: a timeout, a 500, a 303 and a 401 leave the
loop still iterating. -/
theorem c5_retry_loop_never_gives_up_witness :
    (fetch_configuration cHostEnv none
        [Response.timeout, Response.httpResp 500 JVal.null,
         Response.httpResp 303 JVal.null, Response.httpResp 401 JVal.null]).2 =
      FetchOutcome.pending :=
  c5_retry_loop_never_gives_up cHostEnv none
    [Response.timeout, Response.httpResp 500 JVal.null,
     Response.httpResp 303 JVal.null, Response.httpResp 401 JVal.null]
    (by decide)

/-- C9 counterexample.  With the supplied secret being the empty string, the
`x-rewst-secret` header is absent from the request fetch sends — `if secret:`
is a truthiness test, so a supplied empty secret behaves like no secret. -/
theorem c9_counterexample :
    buildHeaders (some "") = [] ∧
    (fetch_configuration cHostEnv (some "") [good200 cfgD]).1.sent.map
      Request.headers = [[]] :=
  ⟨rfl, rfl⟩

/-- C9 (amended).  Every request fetch sends carries exactly the headers
`buildHeaders secret`; the `x-rewst-secret` header is present with value `v`
iff the supplied secret is `v` AND `v` is non-empty (a supplied empty string
does not set the header). -/
theorem c9_secret_header_iff_truthy (env : HostEnv) (secret : Option String)
    (responses : List Response) (x : Request)
    (hx : x ∈ (fetch_configuration env secret responses).1.sent) :
    x.headers = buildHeaders secret ∧
    ∀ v, (("x-rewst-secret", v) ∈ x.headers ↔ secret = some v ∧ v ≠ "") := by
  have hxr := fetch_sent_const env secret responses x hx
  subst hxr
  refine ⟨rfl, fun v => ?_⟩
  constructor
  · intro hv
    cases secret with
    | none => simp [requestOf, buildHeaders] at hv
    | some s =>
      by_cases hs : s = ""
      · subst hs
        simp [requestOf, buildHeaders] at hv
      · simp [requestOf, buildHeaders, hs] at hv
        exact ⟨by rw [hv], by rw [hv]; exact hs⟩
  · rintro ⟨rfl, hne⟩
    simp [requestOf, buildHeaders, hne]

/-- Witness for the amended C9 with a non-empty secret. -/
theorem c9_secret_header_iff_truthy_witness :
    (requestOf cHostEnv (some "s")).headers = buildHeaders (some "s") ∧
    ∀ v, (("x-rewst-secret", v) ∈ (requestOf cHostEnv (some "s")).headers ↔
      some "s" = some v ∧ v ≠ "") :=
  c9_secret_header_iff_truthy cHostEnv (some "s") [good200 cfgD] _
    (List.mem_singleton.mpr rfl)

/-! ### ConfigStore helpers -/

theorem lookup_of_containsKey : ∀ {D : List (String × JVal)} {k : String},
    containsKey D k = true → ∃ v, D.lookup k = some v := by
  intro D k h
  induction D with
  | nil => simp [containsKey] at h
  | cons a l ih =>
    obtain ⟨k1, v1⟩ := a
    cases hk : (k == k1) with
    | false =>
      have h2 : containsKey l k = true := by
        have h3 : ((k == k1) || l.any (fun p => k == p.1)) = true := h
        rw [hk, Bool.false_or] at h3
        exact h3
      obtain ⟨v, hv⟩ := ih h2
      exact ⟨v, by simp [List.lookup, hk, hv]⟩
    | true => exact ⟨v1, by simp [List.lookup, hk]⟩

theorem lookup_eq_none_of_not_mem {D : List (String × JVal)} {k : String}
    (h : k ∉ D.map Prod.fst) : D.lookup k = none := by
  induction D with
  | nil => rfl
  | cons a l ih =>
    obtain ⟨k1, v1⟩ := a
    simp only [List.map_cons, List.mem_cons] at h
    push_neg at h
    have hk : (k == k1) = false := beq_eq_false_iff_ne.mpr h.1
    simp [List.lookup, hk, ih h.2]

/-- A truthy explicit `config_file` argument is returned verbatim, with no
filesystem effect (lines 32-33). -/
theorem get_config_file_path_override (env : OsEnv) (org : Option JVal)
    (p : String) (fs : FS) (hp : p ≠ "") :
    get_config_file_path env org (some p) fs = .ok (p, fs) := by
  unfold get_config_file_path
  rw [if_pos (by simp [optStrTruthy, hp])]
  rfl

/-- C7 counterexample.  A file exists at the resolved path and its content is
the JSON text `null`, yet `load` returns the Absent sentinel (Python `None`,
i.e. `JVal.null`) — the sentinel is conflated with a stored JSON null, so
"Absent iff no file exists" fails in the only-if direction. -/
theorem c7_counterexample :
    load_configuration cOsEnv none (some "/tmp/config.json") fsNull =
      .ok (JVal.null, fsNull) ∧
    (fsNull.getFile "/tmp/config.json").isSome = true :=
  ⟨rfl, rfl⟩

/-- C7 (amended).  On a truthy override path, `load` returns the Absent
sentinel iff no file exists at the resolved path OR the existing file's
content is the JSON text `null` (whose parse is the very sentinel value);
an unreadable file propagates PermissionError and a malformed file
propagates a JSON decode error, never conflated with Absent. -/
theorem c7_load_absent_characterization (env : OsEnv) (org : Option JVal)
    (p : String) (fs : FS) (hp : p ≠ "") :
    (load_configuration env org (some p) fs = .ok (JVal.null, fs) ↔
      (fs.getFile p = none ∨ fs.getFile p = some (FileContent.jsonText JVal.null))) ∧
    (fs.getFile p = some FileContent.malformed →
      load_configuration env org (some p) fs = .error (PyErr.jsonDecodeError, fs)) ∧
    (fs.getFile p = some FileContent.unreadable →
      load_configuration env org (some p) fs = .error (PyErr.permissionError, fs)) := by
  unfold load_configuration
  rw [get_config_file_path_override env org p fs hp]
  rcases hg : fs.getFile p with _ | c
  · simp [hg]
  · cases c with
    | jsonText v => simp [hg]
    | malformed => simp [hg]
    | unreadable => simp [hg]

/-- Witness for the amended C7 at the concrete null-file filesystem. -/
theorem c7_load_absent_characterization_witness :
    (load_configuration cOsEnv none (some "/tmp/config.json") fsNull =
        .ok (JVal.null, fsNull) ↔
      (fsNull.getFile "/tmp/config.json" = none ∨
        fsNull.getFile "/tmp/config.json" =
          some (FileContent.jsonText JVal.null))) ∧
    (fsNull.getFile "/tmp/config.json" = some FileContent.malformed →
      load_configuration cOsEnv none (some "/tmp/config.json") fsNull =
        .error (PyErr.jsonDecodeError, fsNull)) ∧
    (fsNull.getFile "/tmp/config.json" = some FileContent.unreadable →
      load_configuration cOsEnv none (some "/tmp/config.json") fsNull =
        .error (PyErr.permissionError, fsNull)) :=
  c7_load_absent_characterization cOsEnv none "/tmp/config.json" fsNull
    (by decide)

/-- C8 (confirmed).  For a well-formed document D (containing every
REQUIRED_KEYS entry) saved to a truthy explicit path, `load` on the same
resolved path yields the document `D` unchanged. -/
theorem c8_save_load_roundtrip (env : OsEnv) (D : List (String × JVal))
    (p : String) (fs : FS) (hp : p ≠ "")
    (hD : ∀ k ∈ REQUIRED_KEYS, containsKey D k = true) :
    ∃ fs2, save_configuration env D (some p) fs = .ok fs2 ∧
      load_configuration env none (some p) fs2 = .ok (JVal.obj D, fs2) := by
  obtain ⟨v, hv⟩ := lookup_of_containsKey (hD "rewst_org_id" (by decide))
  refine ⟨fs.setFile p (FileContent.jsonText (.obj D)), ?_, ?_⟩
  · unfold save_configuration
    simp only [hv, get_config_file_path_override env (some v) p fs hp]
  · have hget : (fs.setFile p (FileContent.jsonText (JVal.obj D))).getFile p =
        some (FileContent.jsonText (JVal.obj D)) := by
      simp [FS.setFile, FS.getFile, List.lookup]
    unfold load_configuration
    simp only [get_config_file_path_override env none p
      (fs.setFile p (FileContent.jsonText (.obj D))) hp, hget]

/-- Witness for C8 at a concrete document, path and empty filesystem. -/
theorem c8_save_load_roundtrip_witness :
    ∃ fs2, save_configuration cOsEnv cfgD (some "/tmp/config.json")
        (FS.mk [] []) = .ok fs2 ∧
      load_configuration cOsEnv none (some "/tmp/config.json") fs2 =
        .ok (JVal.obj cfgD, fs2) :=
  c8_save_load_roundtrip cOsEnv cfgD "/tmp/config.json" (FS.mk [] [])
    (by decide) (by decide)

/-- C10 (confirmed).  If the document lacks the key `rewst_org_id`, `save`
propagates a KeyError raised at line 56, before any path resolution or write
— even when an explicit override path is supplied — and the filesystem it
reports at raise time is the unchanged input filesystem. -/
theorem c10_save_requires_org_key (env : OsEnv) (D : List (String × JVal))
    (configFile : Option String) (fs : FS)
    (h : "rewst_org_id" ∉ D.map Prod.fst) :
    save_configuration env D configFile fs = .error (PyErr.keyError, fs) := by
  unfold save_configuration
  rw [lookup_eq_none_of_not_mem h]

/-- Witness for C10: a document without `rewst_org_id`, an explicit override
path, and a non-trivial filesystem left untouched. -/
theorem c10_save_requires_org_key_witness :
    save_configuration cOsEnv [("device_id", JVal.str "d")] (some "/tmp/out.json")
      (FS.mk ["/etc"] []) = .error (PyErr.keyError, FS.mk ["/etc"] []) :=
  c10_save_requires_org_key cOsEnv [("device_id", JVal.str "d")]
    (some "/tmp/out.json") (FS.mk ["/etc"] []) (by decide)
